import Mathlib

/-!
Verification of the wafer-handling-cell repository: a shallow embedding of
the sender (resilient TCP client, `src/sender.py`) and the server
(ingestion server and CSV persister, `src/server.py`), with theorems
checking the natural-language specification against the code.

Conventions of the embedding:
* sockets are represented by `Option Unit` (`some ()` = a live handle,
  `none` = Python's `None`);
* the outside world (whether a `connect` or `sendall` succeeds) is an
  explicit environment argument;
* the unbounded `while True` reconnection loop is given fuel and returns
  `Option`, `none` marking fuel exhaustion (the loop would still be
  running);
* textual frames are `List Char`; `str.split(",")` is `splitCommas`.
-/

/-- The connection-manager state of `Sender`: the socket handle
(`self.sock`), the current reconnection-attempt counter
(`self.cur_recon_attempts`) and the attempt budget
(`self.max_recon_attempts`, `none` modelling Python `None`). -/
structure SenderState where
  sock : Option Unit
  cur : Nat
  maxR : Option Nat
deriving Repr, DecidableEq

/-- `reconnect_wait_times = [1, 2, 4, 8, 16, 32]` from `Sender.reconnect`. -/
def reconnect_wait_times : List Nat := [1, 2, 4, 8, 16, 32]

/-- The wait time computed by `Sender.reconnect` after a failed attempt,
as a function of the budget and of the attempt counter `cur` taken AFTER
the increment (so `cur ≥ 1`: `cur = k` means the k-th attempt just
failed).  Mirrors lines 118-129 of `src/sender.py`:
`if self.max_recon_attempts is None` take the last fixed value when
`cur > len(reconnect_wait_times)` and `min(60, 2 ** (cur - 1))`
otherwise; in the bounded branch index the fixed list by
`min(cur - 1, len - 1)` and cap at 60. -/
def waitTime (maxR : Option Nat) (cur : Nat) : Nat :=
  match maxR with
  | none =>
      if cur > reconnect_wait_times.length then
        reconnect_wait_times.getD (reconnect_wait_times.length - 1) 0
      else
        min 60 (2 ^ (cur - 1))
  | some _ =>
      min (reconnect_wait_times.getD
            (min (cur - 1) (reconnect_wait_times.length - 1)) 0) 60

/-- The spec's formula for the unbounded-mode wait (written from the
spec's words, for comparison with `waitTime`): the fixed-sequence values
while the attempt number does not exceed the sequence length, and
`min(60, 2^(attempt-1))` once it exceeds it. -/
def specWaitUnbounded (cur : Nat) : Nat :=
  if cur ≤ reconnect_wait_times.length then
    reconnect_wait_times.getD (cur - 1) 0
  else
    min 60 (2 ^ (cur - 1))

/-- How one pass of the `while True` loop in `Sender.reconnect` ends. -/
inductive ReconOutcome
  | connected
  | aborted
deriving Repr, DecidableEq

/-- Observable result of one `reconnect()` call: how it ended, the final
attempt counter, how many connection attempts were issued, and the list
of backoff waits slept (in order). -/
structure ReconResult where
  outcome : ReconOutcome
  finalCur : Nat
  attempts : Nat
  waits : List Nat
deriving Repr, DecidableEq

/-- Whether the guard at the top of the loop fires:
`self.max_recon_attempts is not None and
 self.cur_recon_attempts >= self.max_recon_attempts`. -/
def budgetExhausted (maxR : Option Nat) (cur : Nat) : Bool :=
  match maxR with
  | none => false
  | some m => m ≤ cur

/-- The `while True` loop of `Sender.reconnect` (lines 92-131).  `env k`
tells whether the k-th connection attempt of this call succeeds.  On
success the counter resets to 0 and the loop returns; on failure the
counter is incremented and the computed wait is slept before looping.
`none` = fuel ran out (the loop is still running). -/
def reconnectLoop (env : Nat → Bool) (maxR : Option Nat) :
    Nat → Nat → Nat → Option ReconResult
  | 0, _, _ => none
  | fuel + 1, cur, k =>
    if budgetExhausted maxR cur then
      some ⟨.aborted, cur, 0, []⟩
    else if env k then
      some ⟨.connected, 0, 1, []⟩
    else
      match reconnectLoop env maxR fuel (cur + 1) (k + 1) with
      | none => none
      | some r => some ⟨r.outcome, r.finalCur, r.attempts + 1,
                        waitTime maxR (cur + 1) :: r.waits⟩

/-- `Sender.reconnect`: closes any existing socket (handle becomes
`None`), then runs the retry loop; a successful attempt leaves a fresh
live socket, an abort leaves the handle `None`. -/
def reconnect (env : Nat → Bool) (fuel : Nat) (s : SenderState) :
    Option (SenderState × ReconResult) :=
  match reconnectLoop env s.maxR fuel s.cur 0 with
  | none => none
  | some r =>
      some ({ s with
                sock := match r.outcome with
                        | .connected => some ()
                        | .aborted => none,
                cur := r.finalCur }, r)

/-! ## Frames: the WireRecord textual codec -/

/-- Python's `str.split(",")` on a `List Char` frame: splitting the empty
string yields one empty field, and every comma opens a new field. -/
def splitCommas : List Char → List (List Char)
  | [] => [[]]
  | c :: rest =>
      if c = ',' then [] :: splitCommas rest
      else
        match splitCommas rest with
        | [] => [[c]]
        | f :: fs => (c :: f) :: fs

/-- Joining fields back with `","`, the inverse direction of
`splitCommas` (the compact form of the f-string concatenation in
`Sender.fetch_data`). -/
def joinCommas : List (List Char) → List Char
  | [] => []
  | [f] => f
  | f :: fs => f ++ ',' :: joinCommas fs

/-- The fixed source identifier `self.name = "rpi01"` of the sender. -/
def senderName : List Char := "rpi01".toList

/-- One sensor reading, with every numeric value already rendered to its
decimal text by the f-string (the Sense HAT acquisition itself is an
opaque external capability; Python's rendering of a float and the
`"%H:%M:%S.%f"` timestamp never contain a comma, which the theorems take
as a hypothesis where needed). -/
structure SensorSample where
  time_str : List Char
  ori_roll : List Char
  ori_pitch : List Char
  ori_yaw : List Char
  gyr_x : List Char
  gyr_y : List Char
  gyr_z : List Char
  acc_x : List Char
  acc_y : List Char
  acc_z : List Char
deriving Repr, DecidableEq

/-- `Sender.fetch_data` (lines 41-55): the frame
`f"{time_str},{self.name},{ori_str}{gyr_str}{acc_str}"` where
`ori_str`, `gyr_str` end in a trailing comma and `acc_str` does not. -/
def fetch_data (s : SensorSample) : List Char :=
  s.time_str ++ ',' :: senderName ++ ',' ::
    (s.ori_roll ++ ',' :: s.ori_pitch ++ ',' :: s.ori_yaw ++ [','] ++
     (s.gyr_x ++ ',' :: s.gyr_y ++ ',' :: s.gyr_z ++ [','] ++
      (s.acc_x ++ ',' :: s.acc_y ++ ',' :: s.acc_z)))

/-- The 11 fields of a sample in wire order. -/
def sampleFields (s : SensorSample) : List (List Char) :=
  [s.time_str, senderName, s.ori_roll, s.ori_pitch, s.ori_yaw,
   s.gyr_x, s.gyr_y, s.gyr_z, s.acc_x, s.acc_y, s.acc_z]

/-! ## `Sender.send_data` -/

/-- How `Sender.send_data` ends, seen by its caller.  `sent` and
`dropped` are normal returns (`dropped` = both transmissions failed with
a socket error and the record is abandoned with only a log line);
`attrError` is the `AttributeError` raised by `self.sock.sendall` when
`self.sock` is `None` — it is NOT caught by `except socket.error` and
escapes `send_data`. -/
inductive SendResult
  | sent
  | dropped
  | attrError
deriving Repr, DecidableEq

/-- Trace of one `send_data` call: the final sender state, the outcome,
how many `reconnect()` calls the socket-error handler made, and the
payload of every `sendall` actually executed on a live socket
(in order). -/
structure SendTrace where
  final : SenderState
  result : SendResult
  errReconnects : Nat
  payloads : List (List Char)
deriving Repr, DecidableEq

/-- Environment for one `send_data` call: whether the first `sendall`
on a live socket succeeds, the connection-attempt oracles for the
initial reconnect (taken when `self.sock` is falsy) and for the
reconnect inside the error handler, and whether the retry `sendall`
succeeds. -/
structure SendEnv where
  firstSend : Bool
  reconEnv0 : Nat → Bool
  reconEnvErr : Nat → Bool
  retrySend : Bool

/-- `Sender.send_data` (lines 57-75): fetch the data, reconnect first if
there is no socket, try `sendall`; on a socket error reconnect once and
retry the same frame once, dropping the record if the retry also fails
with a socket error.  A `sendall` on a `None` socket raises an
`AttributeError` that no handler catches. -/
def send_data (env : SendEnv) (fuel : Nat) (sample : SensorSample)
    (s : SenderState) : Option SendTrace :=
  let data := fetch_data sample
  let step0 : Option SenderState :=
    match s.sock with
    | none =>
        match reconnect env.reconEnv0 fuel s with
        | none => none
        | some (s0, _) => some s0
    | some _ => some s
  match step0 with
  | none => none
  | some s0 =>
    match s0.sock with
    | none => some ⟨s0, .attrError, 0, []⟩
    | some _ =>
      if env.firstSend then
        some ⟨s0, .sent, 0, [data]⟩
      else
        match reconnect env.reconEnvErr fuel s0 with
        | none => none
        | some (s1, _) =>
          match s1.sock with
          | none => some ⟨s1, .attrError, 1, [data]⟩
          | some _ =>
            if env.retrySend then
              some ⟨s1, .sent, 1, [data, data]⟩
            else
              some ⟨s1, .dropped, 1, [data, data]⟩

/-! ## Server: persister, handler, accept loop -/

/-- The durable CSV store: the ordered list of rows already written, each
row a list of fields. -/
abbrev Store := List (List (List Char))

/-- `Server.save_data` (lines 85-93): split the received text on commas
and append the parts as one row — no validation of the field count. -/
def save_data (store : Store) (data : List Char) : Store :=
  store ++ [splitCommas data]

/-- `Server.handle_client` (lines 68-83): repeatedly `recv` a message and
save it until an empty read ends the loop.  The socket is modelled by the
list of non-empty messages the peer sends before closing. -/
def handle_client (store : Store) (messages : List (List Char)) : Store :=
  messages.foldl save_data store

/-- `self.allowed_ips` from `Server.__init__` (lines 36-41). -/
def allowed_ips : List (List Char) :=
  ["192.168.0.201".toList, "192.168.0.202".toList,
   "192.168.0.203".toList, "192.168.0.204".toList]

/-- What the accept loop did with one accepted connection. -/
structure AcceptResult where
  handlersSpawned : Nat
  readsPerformed : Nat
  store : Store
deriving Repr, DecidableEq

/-- One iteration of the accept loop in `Server.listen` (lines 51-66):
if the peer IP is in `allowed_ips`, spawn a handler thread that reads and
saves the connection's messages; otherwise log and close the socket at
once — no handler, no read, no store access. -/
def acceptConn (allowed : List (List Char)) (store : Store)
    (ip : List Char) (messages : List (List Char)) : AcceptResult :=
  if ip ∈ allowed then
    ⟨1, messages.length, handle_client store messages⟩
  else
    ⟨0, 0, store⟩

/-- The fixed 11-column header written by `Server.set_output_csv`
(lines 143-155). -/
def csvHeaders : List (List Char) :=
  ["time".toList, "sh_id".toList,
   "ori_r".toList, "ori_p".toList, "ori_y".toList,
   "gyr_x".toList, "gyr_y".toList, "gyr_z".toList,
   "acc_x".toList, "acc_y".toList, "acc_z".toList]

/-- `Server.set_output_csv` (lines 134-164) acting on the store file:
`none` = the file does not exist yet.  `os.path.isfile` decides
`file_exists`; opening with mode `"a"` creates the file, and the header
row is written only `if not file_exists`. -/
def set_output_csv (file : Option Store) : Store :=
  match file with
  | none => [csvHeaders]
  | some rows => rows

/-! ## Lemmas about the comma codec -/

theorem splitCommas_ne_nil (s : List Char) : splitCommas s ≠ [] := by
  induction s with
  | nil => simp [splitCommas]
  | cons c rest ih =>
    rw [splitCommas]
    by_cases hc : c = ','
    · simp [hc]
    · rw [if_neg hc]
      cases h : splitCommas rest with
      | nil => simp
      | cons f fs => simp

theorem splitCommas_no_comma (f : List Char) (h : ',' ∉ f) :
    splitCommas f = [f] := by
  induction f with
  | nil => rfl
  | cons c rest ih =>
    have hc : c ≠ ',' := by
      intro hx; exact h (hx ▸ List.mem_cons_self c rest)
    have hrest : ',' ∉ rest := fun hx => h (List.mem_cons_of_mem c hx)
    rw [splitCommas, if_neg hc, ih hrest]

theorem splitCommas_append_comma (f t : List Char) (h : ',' ∉ f) :
    splitCommas (f ++ ',' :: t) = f :: splitCommas t := by
  induction f with
  | nil => simp [splitCommas]
  | cons c rest ih =>
    have hc : c ≠ ',' := by
      intro hx; exact h (hx ▸ List.mem_cons_self c rest)
    have hrest : ',' ∉ rest := fun hx => h (List.mem_cons_of_mem c hx)
    show splitCommas (c :: (rest ++ ',' :: t)) = (c :: rest) :: splitCommas t
    rw [splitCommas, if_neg hc, ih hrest]

theorem splitCommas_joinCommas (fields : List (List Char))
    (hne : fields ≠ []) (h : ∀ f ∈ fields, ',' ∉ f) :
    splitCommas (joinCommas fields) = fields := by
  induction fields with
  | nil => exact absurd rfl hne
  | cons f fs ih =>
    cases fs with
    | nil => exact splitCommas_no_comma f (h f (List.mem_cons_self f []))
    | cons g gs =>
      have hf : ',' ∉ f := h f (List.mem_cons_self f (g :: gs))
      have hrest : ∀ x ∈ g :: gs, ',' ∉ x := fun x hx =>
        h x (List.mem_cons_of_mem f hx)
      show splitCommas (f ++ ',' :: joinCommas (g :: gs)) = f :: g :: gs
      rw [splitCommas_append_comma f _ hf, ih (by simp) hrest]

theorem joinCommas_cons_field (c : Char) (f : List Char)
    (fs : List (List Char)) :
    joinCommas ((c :: f) :: fs) = c :: joinCommas (f :: fs) := by
  cases fs with
  | nil => rfl
  | cons g gs => rfl

theorem joinCommas_splitCommas (s : List Char) :
    joinCommas (splitCommas s) = s := by
  induction s with
  | nil => rfl
  | cons c rest ih =>
    by_cases hc : c = ','
    · subst hc
      rw [splitCommas, if_pos rfl]
      cases h : splitCommas rest with
      | nil => exact absurd h (splitCommas_ne_nil rest)
      | cons f fs =>
        rw [h] at ih
        show joinCommas ([] :: f :: fs) = ',' :: rest
        show [] ++ ',' :: joinCommas (f :: fs) = ',' :: rest
        rw [List.nil_append, ih]
    · rw [splitCommas, if_neg hc]
      cases h : splitCommas rest with
      | nil => exact absurd h (splitCommas_ne_nil rest)
      | cons f fs =>
        rw [h] at ih
        rw [joinCommas_cons_field, ih]

/-! ## Lemmas about the reconnection loop -/

theorem reconnectLoop_exhausted (env : Nat → Bool) (maxR : Option Nat)
    (fuel cur k : Nat) (hfuel : 1 ≤ fuel)
    (h : budgetExhausted maxR cur = true) :
    reconnectLoop env maxR fuel cur k = some ⟨.aborted, cur, 0, []⟩ := by
  cases fuel with
  | zero => omega
  | succ n => rw [reconnectLoop, if_pos h]

/-- The backoff waits slept by `d` consecutive failed attempts when the
counter starts at `cur`: attempt `cur + 1` sleeps `waitTime maxR (cur+1)`,
and so on. -/
def waitsFrom (maxR : Option Nat) (cur : Nat) : Nat → List Nat
  | 0 => []
  | d + 1 => waitTime maxR (cur + 1) :: waitsFrom maxR (cur + 1) d

theorem reconnectLoop_allFail (env : Nat → Bool)
    (henv : ∀ i, env i = false) (m : Nat) :
    ∀ d fuel cur k, cur + d = m → d + 1 ≤ fuel →
      reconnectLoop env (some m) fuel cur k =
        some ⟨.aborted, m, d, waitsFrom (some m) cur d⟩ := by
  intro d
  induction d with
  | zero =>
    intro fuel cur k hcur hfuel
    have hb : budgetExhausted (some m) cur = true := by
      simp [budgetExhausted]; omega
    rw [reconnectLoop_exhausted env (some m) fuel cur k hfuel hb]
    simp [waitsFrom]
    omega
  | succ d ih =>
    intro fuel cur k hcur hfuel
    cases fuel with
    | zero => omega
    | succ n =>
      have hb : budgetExhausted (some m) cur = false := by
        simp [budgetExhausted]; omega
      rw [reconnectLoop, if_neg (by rw [hb]; exact Bool.false_ne_true),
        henv k, if_neg Bool.false_ne_true,
        ih n (cur + 1) (k + 1) (by omega) (by omega)]
      rfl

theorem reconnectLoop_connected_cur_zero (env : Nat → Bool)
    (maxR : Option Nat) :
    ∀ fuel cur k r, reconnectLoop env maxR fuel cur k = some r →
      r.outcome = .connected → r.finalCur = 0 := by
  intro fuel
  induction fuel with
  | zero => intro cur k r h; exact absurd h (by rw [reconnectLoop]; simp)
  | succ n ih =>
    intro cur k r h hc
    rw [reconnectLoop] at h
    by_cases hb : budgetExhausted maxR cur = true
    · rw [if_pos hb] at h
      cases h
      exact absurd hc (by simp)
    · rw [if_neg hb] at h
      by_cases he : env k = true
      · rw [if_pos he] at h
        cases h
        rfl
      · rw [if_neg he] at h
        cases hrec : reconnectLoop env maxR n (cur + 1) (k + 1) with
        | none => rw [hrec] at h; cases h
        | some r' =>
          rw [hrec] at h
          cases h
          exact ih (cur + 1) (k + 1) r' hrec hc

theorem fetch_data_eq_join (s : SensorSample) :
    fetch_data s = joinCommas (sampleFields s) := by
  show fetch_data s = joinCommas
    [s.time_str, senderName, s.ori_roll, s.ori_pitch, s.ori_yaw,
     s.gyr_x, s.gyr_y, s.gyr_z, s.acc_x, s.acc_y, s.acc_z]
  simp [fetch_data, joinCommas, List.append_assoc]

/-! ## Claim theorems -/

/-- C1, counterexample: the spec's claim about unbounded mode fails at
attempt 7.  The code (`waitTime`) takes the LAST fixed-sequence value
(32 s) once the attempt number exceeds the sequence length, while the
claim's formula (`specWaitUnbounded`, `min(60, 2^(k-1))` past the
sequence length) gives 60 s. -/
theorem backoff_unbounded_mismatch :
    waitTime none 7 = 32 ∧ specWaitUnbounded 7 = 60 ∧
    waitTime none 7 ≠ specWaitUnbounded 7 := by
  decide

/-- C1 (amended): for every attempt number `k ≥ 1` the backoff wait
before the next attempt is, in BOTH modes, the fixed sequence
`[1,2,4,8,16,32]` indexed by `min(k-1, 5)`: bounded mode as the claim
states it; unbounded mode uses `min(60, 2^(k-1))` (the same
fixed-sequence values) while `k` does not exceed the sequence length and
the last fixed value 32 s — not `min(60, 2^(k-1))` — once it does. -/
theorem backoff_schedule (maxR : Option Nat) (k : Nat) (hk : 1 ≤ k) :
    waitTime maxR k = reconnect_wait_times.getD (min (k - 1) 5) 0 := by
  rcases maxR with _ | m
  · rw [waitTime]
    by_cases h : reconnect_wait_times.length < k
    · rw [if_pos h]
      have h6 : 7 ≤ k := by
        have : reconnect_wait_times.length = 6 := rfl
        omega
      have h5 : min (k - 1) 5 = 5 := by omega
      rw [h5]
      rfl
    · rw [if_neg h]
      have hk6 : k ≤ 6 := by
        have : reconnect_wait_times.length = 6 := rfl
        omega
      interval_cases k <;> decide
  · rw [waitTime]
    show min (reconnect_wait_times.getD (min (k - 1) 5) 0) 60 =
      reconnect_wait_times.getD (min (k - 1) 5) 0
    have hj : min (k - 1) 5 ≤ 5 := Nat.min_le_right _ _
    revert hj
    generalize min (k - 1) 5 = j
    intro hj
    interval_cases j <;> decide

/-- C1, witness for the amended theorem at `k = 7` in unbounded mode. -/
theorem backoff_schedule_witness :
    1 ≤ 7 ∧ waitTime none 7 = reconnect_wait_times.getD (min (7 - 1) 5) 0 :=
  ⟨by decide, backoff_schedule none 7 (by decide)⟩

/-- A concrete sensor sample, the one of the spec's fresh-store
scenario, used by the witnesses. -/
def sampleW : SensorSample :=
  ⟨"12:00:00.000000".toList, "1.0".toList, "2.0".toList, "3.0".toList,
   "0.1".toList, "0.2".toList, "0.3".toList,
   "0.01".toList, "0.02".toList, "0.03".toList⟩

/-- Helper: a `reconnect()` call whose budget is already exhausted
aborts at once — no connection attempt, counter unchanged, socket handle
left `None`. -/
theorem reconnect_exhausted (env : Nat → Bool) (fuel : Nat)
    (s : SenderState) (m : Nat) (hmax : s.maxR = some m)
    (hcur : m ≤ s.cur) (hfuel : 1 ≤ fuel) :
    reconnect env fuel s =
      some ({ s with sock := none, cur := s.cur },
        ⟨.aborted, s.cur, 0, []⟩) := by
  have hb : budgetExhausted s.maxR s.cur = true := by
    rw [hmax]
    simp [budgetExhausted]
    omega
  rw [reconnect, reconnectLoop_exhausted env s.maxR fuel s.cur 0 hfuel hb]

/-- C2: with a bounded budget `N` and an environment in which every
connection attempt fails, the reconnection loop started from a fresh
counter issues exactly `N` connection attempts (so no `(N+1)`-th
attempt), sleeps the scheduled backoff after each failure, and
terminates ABORTED only once the `N`-th attempt has failed. -/
theorem bounded_budget_aborts (N fuel : Nat) (env : Nat → Bool)
    (henv : ∀ i, env i = false) (hfuel : N + 1 ≤ fuel) :
    reconnectLoop env (some N) fuel 0 0 =
      some ⟨.aborted, N, N, waitsFrom (some N) 0 N⟩ :=
  reconnectLoop_allFail env henv N N fuel 0 0 (by omega) hfuel

/-- C2, witness: the spec scenario `max_attempts = 2`, both attempts
refused — a 1 s wait after attempt 1, ABORTED after attempt 2 fails,
no third attempt. -/
theorem bounded_budget_aborts_witness :
    reconnectLoop (fun _ => false) (some 2) 3 0 0 =
      some ⟨.aborted, 2, 2, [1, 2]⟩ := by
  have h := bounded_budget_aborts 2 3 (fun _ => false) (fun _ => rfl)
    (by decide)
  rw [h]
  decide

/-- C9: whenever `reconnect()` returns through a successful connection,
the attempt counter of the returned state is 0 (and the socket handle is
live), whatever the prior attempt count was. -/
theorem counter_reset_on_connect (env : Nat → Bool) (fuel : Nat)
    (s s1 : SenderState) (r : ReconResult)
    (h : reconnect env fuel s = some (s1, r))
    (hc : r.outcome = .connected) :
    s1.cur = 0 ∧ s1.sock = some () := by
  rw [reconnect] at h
  cases hrec : reconnectLoop env s.maxR fuel s.cur 0 with
  | none => rw [hrec] at h; cases h
  | some r' =>
    rw [hrec] at h
    simp only [Option.some.injEq, Prod.mk.injEq] at h
    obtain ⟨hs1, hrr⟩ := h
    rw [hrr] at hrec hs1
    have h0 := reconnectLoop_connected_cur_zero env s.maxR fuel s.cur 0 r
      hrec hc
    refine ⟨?_, ?_⟩
    · rw [← hs1]
      exact h0
    · rw [← hs1]
      show (match r.outcome with
            | .connected => some ()
            | .aborted => none) = some ()
      rw [hc]

/-- C9, witness: a successful first attempt from a prior count of 57
returns with the counter reset to 0 and a live socket. -/
theorem counter_reset_on_connect_witness :
    (⟨some (), 0, some 100⟩ : SenderState).cur = 0 ∧
    (⟨some (), 0, some 100⟩ : SenderState).sock = some () :=
  counter_reset_on_connect (fun _ => true) 1 ⟨none, 57, some 100⟩
    ⟨some (), 0, some 100⟩ ⟨.connected, 0, 1, []⟩ (by decide) rfl

/-- C3: when the first transmission fails with a socket-level error and
the in-handler `reconnect()` re-establishes a connection, `send_data`
performs exactly one reconnect and exactly one retry of the SAME frame
(the payload list is the frame twice); if that retry also fails with a
socket error the outcome is `dropped` — the record is abandoned and the
call returns normally instead of raising. -/
theorem send_retry_once_then_drop (env : SendEnv) (fuel : Nat)
    (sample : SensorSample) (s s1 : SenderState) (r : ReconResult)
    (hsock : s.sock = some ())
    (hfirst : env.firstSend = false)
    (hrec : reconnect env.reconEnvErr fuel s = some (s1, r))
    (hlive : s1.sock = some ())
    (hretry : env.retrySend = false) :
    send_data env fuel sample s =
      some ⟨s1, .dropped, 1, [fetch_data sample, fetch_data sample]⟩ := by
  rw [send_data]
  simp only [hsock, hfirst, hrec, hlive, hretry]
  simp

/-- C3, witness: a live socket, a failing first send, a reconnect whose
first attempt succeeds, and a failing retry — the record is dropped
after one reconnect and one retry. -/
theorem send_retry_once_then_drop_witness :
    send_data ⟨false, fun _ => true, fun _ => true, false⟩ 1 sampleW
      ⟨some (), 0, some 100⟩ =
      some ⟨⟨some (), 0, some 100⟩, .dropped, 1,
        [fetch_data sampleW, fetch_data sampleW]⟩ :=
  send_retry_once_then_drop ⟨false, fun _ => true, fun _ => true, false⟩ 1
    sampleW ⟨some (), 0, some 100⟩ ⟨some (), 0, some 100⟩
    ⟨.connected, 0, 1, []⟩ rfl rfl (by decide) rfl rfl

/-- C10: once a bounded retry budget is exhausted (`cur ≥ max`),
`reconnect()` aborts at once leaving the socket handle `None`, and a
`send_data` in that state dereferences the `None` socket: the resulting
`AttributeError` is not caught by the `except socket.error` handler and
escapes the call (result `attrError`), both when the socket was already
`None` on entry (no frame ever transmitted) and on the retry after a
failed first transmission. -/
theorem exhausted_budget_attrError (env : SendEnv) (fuel : Nat)
    (sample : SensorSample) (s : SenderState) (m : Nat)
    (hmax : s.maxR = some m) (hcur : m ≤ s.cur) (hfuel : 1 ≤ fuel) :
    (∀ s' r, reconnect env.reconEnv0 fuel s = some (s', r) →
        r.outcome = .aborted ∧ s'.sock = none) ∧
    (s.sock = none → send_data env fuel sample s =
        some ⟨{ s with sock := none, cur := s.cur }, .attrError, 0, []⟩) ∧
    (s.sock = some () → env.firstSend = false →
        send_data env fuel sample s =
          some ⟨{ s with sock := none, cur := s.cur }, .attrError, 1,
            [fetch_data sample]⟩) := by
  refine ⟨?_, ?_, ?_⟩
  · intro s' r h
    rw [reconnect_exhausted env.reconEnv0 fuel s m hmax hcur hfuel] at h
    simp only [Option.some.injEq, Prod.mk.injEq] at h
    obtain ⟨hs', hr⟩ := h
    rw [← hr, ← hs']
    exact ⟨rfl, rfl⟩
  · intro hsock
    rw [send_data]
    simp only [hsock,
      reconnect_exhausted env.reconEnv0 fuel s m hmax hcur hfuel]
  · intro hsock hfirst
    rw [send_data]
    simp only [hsock, hfirst,
      reconnect_exhausted env.reconEnvErr fuel s m hmax hcur hfuel]
    simp

/-- C10, witness: in the post-abort state (`sock = None`,
`cur = max = 5`) a send returns the uncaught-`AttributeError` outcome
with no frame transmitted. -/
theorem exhausted_budget_attrError_witness :
    send_data ⟨true, fun _ => false, fun _ => false, true⟩ 1 sampleW
      ⟨none, 5, some 5⟩ =
      some ⟨⟨none, 5, some 5⟩, .attrError, 0, []⟩ :=
  (exhausted_budget_attrError ⟨true, fun _ => false, fun _ => false, true⟩
    1 sampleW ⟨none, 5, some 5⟩ 5 rfl (by decide) (by decide)).2.1 rfl

/-- A frame with only 9 comma-separated fields, the spec scenario's
malformed input. -/
def frame9 : List Char := "a0,b1,c2,d3,e4,f5,g6,h7,i8".toList

/-- C4, counterexample: a 9-field frame received by the handler IS
passed to the persister — `handle_client` applies no field-count
validation, so the store gains the malformed 9-field row. -/
theorem malformed_frame_reaches_append :
    (splitCommas frame9).length = 9 ∧
    handle_client [] [frame9] = [splitCommas frame9] ∧
    handle_client [] [frame9] ≠ [] := by
  decide

/-- C4 (amended): the handler applies no DecodeError policy — every
received frame, malformed or not, is passed to `save_data`, which
appends exactly the comma-split fields of that frame (a 9-field frame
yields a 9-field row, neither truncated nor padded to 11); this
unvalidated pass-through is what happens deterministically every
time. -/
theorem handler_appends_all_frames (store : Store)
    (msgs : List (List Char)) :
    handle_client store msgs = store ++ msgs.map splitCommas := by
  induction msgs generalizing store with
  | nil => simp [handle_client]
  | cons m ms ih =>
    show handle_client (save_data store m) ms =
      store ++ (m :: ms).map splitCommas
    rw [ih, save_data]
    simp

/-- C6: an accepted connection whose peer address is not in the
allowlist is closed with no read performed, no handler spawned and the
persister's store unchanged. -/
theorem rejected_peer_no_effect (allowed : List (List Char))
    (store : Store) (ip : List Char) (msgs : List (List Char))
    (h : ip ∉ allowed) :
    acceptConn allowed store ip msgs = ⟨0, 0, store⟩ := by
  rw [acceptConn, if_neg h]

/-- C6, witness: a connection from 10.0.0.1, outside the configured
`allowed_ips`, is rejected without reads, handlers or store changes. -/
theorem rejected_peer_no_effect_witness :
    "10.0.0.1".toList ∉ allowed_ips ∧
    acceptConn allowed_ips [] "10.0.0.1".toList [frame9] = ⟨0, 0, []⟩ :=
  ⟨by decide,
   rejected_peer_no_effect allowed_ips [] "10.0.0.1".toList [frame9]
     (by decide)⟩

/-- C7: persister initialization writes the fixed 11-column header
exactly when the store file does not yet exist; an existing store is
left untouched, and initializing twice never writes the header a second
time. -/
theorem header_written_iff_new_store :
    set_output_csv none = [csvHeaders] ∧
    csvHeaders.length = 11 ∧
    (∀ rows : Store, set_output_csv (some rows) = rows) ∧
    (∀ file : Option Store,
      set_output_csv (some (set_output_csv file)) = set_output_csv file) := by
  refine ⟨rfl, by decide, fun rows => rfl, fun file => ?_⟩
  cases file <;> rfl

/-- C8: for every frame produced by `fetch_data` from fields that
contain no comma (as Python's float rendering and the
`"%H:%M:%S.%f"` timestamp never do), splitting on commas yields exactly
11 fields, and re-joining those fields with commas reproduces the
original frame text. -/
theorem wire_roundtrip (s : SensorSample)
    (h : ∀ f ∈ sampleFields s, ',' ∉ f) :
    (splitCommas (fetch_data s)).length = 11 ∧
    joinCommas (splitCommas (fetch_data s)) = fetch_data s := by
  have hsplit : splitCommas (fetch_data s) = sampleFields s := by
    rw [fetch_data_eq_join]
    exact splitCommas_joinCommas (sampleFields s) (by simp [sampleFields]) h
  refine ⟨?_, joinCommas_splitCommas _⟩
  rw [hsplit]
  rfl

/-- C8, witness: the spec scenario's frame
`12:00:00.000000,rpi01,1.0,2.0,3.0,0.1,0.2,0.3,0.01,0.02,0.03`
round-trips through the codec. -/
theorem wire_roundtrip_witness :
    (∀ f ∈ sampleFields sampleW, ',' ∉ f) ∧
    ((splitCommas (fetch_data sampleW)).length = 11 ∧
     joinCommas (splitCommas (fetch_data sampleW)) = fetch_data sampleW) :=
  ⟨by decide, wire_roundtrip sampleW (by decide)⟩
